import Mathlib

/-!
Verification of the overturemaps_qgis extraction pipeline.

This file gives a shallow embedding of the boundary-resolution and
streaming-conversion code of the repository (src/utils.py, src/extract.py,
src/hdx_sync.py) and proves or refutes the frozen specification claims
about it.  Machine-level external libraries (the OGR vector driver, the
arrow dataset reader, the AWS clients) are modelled at the interface the
code uses: a layer is a list of records, a driver spatial filter is a
predicate parameter, a byte-serialized geometry is an opaque byte list.
-/

set_option maxRecDepth 4000
set_option linter.unusedVariables false

namespace OM

/-! ## Values and geometries (OGR interface as used by the code) -/

/-- OGR geometry-type code `ogr.wkbPoint`. -/
def wkbPoint : Nat := 1
/-- OGR geometry-type code `ogr.wkbLineString`. -/
def wkbLineString : Nat := 2
/-- OGR geometry-type code `ogr.wkbPolygon`. -/
def wkbPolygon : Nat := 3
/-- OGR geometry-type code `ogr.wkbMultiPoint`. -/
def wkbMultiPoint : Nat := 4
/-- OGR geometry-type code `ogr.wkbMultiLineString`. -/
def wkbMultiLineString : Nat := 5
/-- OGR geometry-type code `ogr.wkbMultiPolygon`. -/
def wkbMultiPolygon : Nat := 6

/-- An OGR geometry as the code observes it: a geometry-type code plus the
list of sub-geometries (`AddGeometry` appends to that list).  Coordinate
data is irrelevant to every claim and is not modelled. -/
inductive Geometry where
  | node : Nat → List Geometry → Geometry

/-- `geom.GetGeometryType()`. -/
def Geometry.gtype : Geometry → Nat
  | .node t _ => t

/-- OGR field-type code `ogr.OFTInteger`. -/
def OFTInteger : Nat := 0
/-- OGR field-type code `ogr.OFTReal`. -/
def OFTReal : Nat := 2
/-- OGR field-type code `ogr.OFTString`. -/
def OFTString : Nat := 4
/-- OGR field-type code `ogr.OFTStringList`. -/
def OFTStringList : Nat := 5

/-- A typed field value as returned by `feature.GetField` /
`row[field_name]`. -/
inductive Value where
  | nullV : Value
  | strV : String → Value
  | intV : Int → Value
  | realV : ℚ → Value
  | strListV : List String → Value
deriving DecidableEq

/-- An OGR field definition: `ogr.FieldDefn(name, type)`. -/
structure FieldDefn where
  name : String
  ftype : Nat
deriving DecidableEq

/-! ## Python string helpers used by the code -/

/-- Helper for `pySplit`: split a character list at every separator
occurrence, keeping empty pieces (Python `str.split(sep)` semantics). -/
def splitChars (sep : Char) : List Char → List (List Char)
  | [] => [[]]
  | c :: rest =>
    match splitChars sep rest with
    | [] => [[]]
    | cur :: others =>
      if c = sep then [] :: cur :: others else (c :: cur) :: others

/-- Python `s.split(sep)` for a one-character separator, as used with
`"_"`, `"."`, `"/"` in the source. -/
def pySplit (s : String) (sep : Char) : List String :=
  (splitChars sep s.toList).map (fun l => String.mk l)

/-- Python code-point comparison of strings (`a <= b`), written as a
structurally recursive Boolean so concrete sorts evaluate in the kernel. -/
def charsLe : List Char → List Char → Bool
  | [], _ => true
  | _ :: _, [] => false
  | a :: as, b :: bs =>
    if a.toNat < b.toNat then true
    else if b.toNat < a.toNat then false
    else charsLe as bs

/-! ## src/utils.py -/

/-- Pinned release version string (`utils.VERSION`). -/
def VERSION : String := "2024-08-20.0"

/-- One feature of the local `boundaries.fgb` store, with the fields the
code reads: `objectid`, `iso3`, `adm0_name`, `rb` (region bucket) and the
byte-serialized geometry returned by `geom.ExportToIsoWkb()`. -/
structure BRecord where
  objectid : Int
  iso3 : String
  adm0_name : String
  rb : String
  wkb : List Nat
deriving DecidableEq

/-- `utils.Boundary` dataclass. -/
structure Boundary where
  id : Int
  iso3 : String
  name : String
  wkb : Option (List Nat)
deriving DecidableEq

/-- The `Boundary(...)` construction inside the `get_boundaries` loop:
attributes are copied from the record, the geometry is exported only when
`with_geom` is true. -/
def mkBoundary (with_geom : Bool) (feature : BRecord) : Boundary :=
  { id := feature.objectid
    iso3 := feature.iso3
    name := feature.adm0_name
    wkb := if with_geom then some feature.wkb else none }

/-- Name order used by `sorted(boundaries, key=lambda x: x.name)`. -/
def nameLe (a b : Boundary) : Prop :=
  charsLe a.name.toList b.name.toList = true

instance : DecidableRel nameLe := fun a b =>
  inferInstanceAs (Decidable (charsLe a.name.toList b.name.toList = true))

/-- Python `sorted(boundaries, key=lambda x: x.name)`: a stable sort by
display name (insertion sort is stable and has the same observable
result up to the total preorder on names). -/
def sortByName (boundaries : List Boundary) : List Boundary :=
  boundaries.insertionSort nameLe

/-- The attribute filter step of `get_boundaries`: when `maybe_ids` is
non-empty, `SetAttributeFilter("objectid IN (...)")` keeps exactly the
records whose `objectid` is one of the requested ids; otherwise the whole
layer is iterated. -/
def selected_records (store : List BRecord) (maybe_ids : List Int) : List BRecord :=
  if 0 < maybe_ids.length then
    store.filter (fun r => maybe_ids.contains r.objectid)
  else store

/-- The loop body filter of `get_boundaries`: records whose `rb` field is
the sentinel `"-"` are skipped with `continue`. -/
def kept_records (store : List BRecord) (maybe_ids : List Int) : List BRecord :=
  (selected_records store maybe_ids).filter (fun r => r.rb != "-")

/-- The boundary list built and sorted by `get_boundaries` before the
length check. -/
def result_boundaries (store : List BRecord) (maybe_ids : List Int)
    (with_geom : Bool) : List Boundary :=
  sortByName ((kept_records store maybe_ids).map (mkBoundary with_geom))

/-- `utils.get_boundaries(maybe_ids, with_geom)` over an explicit store.
The `ValueError(f"object_ids not found {missing}")` raise is modelled as
`Except.error missing`.  Mirrors the source line by line: attribute
filter, `rb == "-"` skip, sort by name, empty-request early return,
length check, missing-id computation. -/
def get_boundaries (store : List BRecord) (maybe_ids : List Int)
    (with_geom : Bool) : Except (List Int) (List Boundary) :=
  if maybe_ids.length = 0 then
    Except.ok (result_boundaries store maybe_ids with_geom)
  else if (result_boundaries store maybe_ids with_geom).length ≠ maybe_ids.length then
    Except.error (maybe_ids.filter (fun i =>
      !(((result_boundaries store maybe_ids with_geom).map Boundary.id).contains i)))
  else Except.ok (result_boundaries store maybe_ids with_geom)

/-- Whether some store record matches a requested id and survives the
sentinel region-bucket skip. -/
def matchedB (store : List BRecord) (i : Int) : Bool :=
  store.any (fun r => r.objectid == i && r.rb != "-")

/-! ## src/extract.py -/

/-- `extract.check_geometry`: `wkbMultiPolygon` and `wkbLineString` pass
through, any type other than those and `wkbPolygon` raises
`ValueError("Invalid geometry type found", ...)`, and a `wkbPolygon` is
wrapped into a fresh `wkbMultiPolygon` holding it as the only part. -/
def check_geometry (geom : Geometry) : Except String Geometry :=
  let geom_type := geom.gtype
  if geom_type = wkbMultiPolygon ∨ geom_type = wkbLineString then
    Except.ok geom
  else if geom_type ≠ wkbPolygon then
    Except.error "Invalid geometry type found"
  else
    Except.ok (Geometry.node wkbMultiPolygon [geom])

/-- One row of a columnar batch as `batch.to_pylist()` yields it: the
`geometry` column (already deserialized from its byte form — coordinate
bytes are not modelled) and the named attribute columns. -/
structure Row where
  geometry : Geometry
  attrs : List (String × Value)

/-- `row[field_name]` lookup. -/
def Row.get (row : Row) (key : String) : Value :=
  match row.attrs.lookup key with
  | some v => v
  | none => Value.nullV

/-- An output feature of the columnar path: the fields set by name plus
the geometry. -/
structure Feature where
  fields : List (String × Value)
  geom : Geometry

/-- `extract.row_to_feature(row, layer_defn, boundary_geom)`.  The
per-feature `geom.Intersects(boundary_geom)` test is commented out in the
source, so `boundary_geom` is never consulted and `None` is never
returned; geometry normalization may still raise. -/
def row_to_feature (row : Row) (layer_defn : List FieldDefn)
    (boundary_geom : Geometry) : Except String (Option Feature) :=
  match check_geometry row.geometry with
  | Except.error e => Except.error e
  | Except.ok geom =>
    let fields := layer_defn.map (fun fd => (fd.name, row.get fd.name))
    Except.ok (some { fields := fields, geom := geom })

/-- The list comprehension
`features = [row_to_feature(row, layer_defn, boundary_geom) for row in batch.to_pylist()]`
inside `get_data_from_bbox`: an exception in any row aborts the batch. -/
def batch_features (layer_defn : List FieldDefn) (boundary_geom : Geometry) :
    List Row → Except String (List (Option Feature))
  | [] => Except.ok []
  | r :: rest =>
    match row_to_feature r layer_defn boundary_geom with
    | Except.error e => Except.error e
    | Except.ok f =>
      match batch_features layer_defn boundary_geom rest with
      | Except.error e => Except.error e
      | Except.ok fs => Except.ok (f :: fs)

/-- The write loop of `get_data_from_bbox` over one batch: `None` entries
are skipped with `continue`, every other feature is written with
`output_layer.CreateFeature`. -/
def write_batch (rows : List Row) (layer_defn : List FieldDefn)
    (boundary_geom : Geometry) : Except String (List Feature) :=
  match batch_features layer_defn boundary_geom rows with
  | Except.error e => Except.error e
  | Except.ok feats => Except.ok (feats.filterMap id)

/-- Modelled from the spec: `SpatialExtent` — four scalar bounds.
`extract.py` imports `Extent` from `utils` and unpacks
`xmin, xmax, ymin, ymax = boundary.extent`, but the provided
`src/utils.py` does not define `Extent`; only the four bounds and their
unpack order are needed here. -/
structure Extent where
  xmin : ℚ
  xmax : ℚ
  ymin : ℚ
  ymax : ℚ

/-- The per-row `bbox` struct columns of the columnar source
(`bbox.xmin`, `bbox.xmax`, `bbox.ymin`, `bbox.ymax`). -/
structure RowBBox where
  xmin : ℚ
  xmax : ℚ
  ymin : ℚ
  ymax : ℚ

/-- The conjunctive pushdown predicate built in `get_data_from_bbox`
(`extract.py` lines 128-133), evaluated on one row's bbox columns. -/
def bbox_predicate (extent : Extent) (bbox : RowBBox) : Bool :=
  (bbox.xmin < extent.xmax) && (bbox.xmax > extent.xmin) &&
    (bbox.ymin < extent.ymax) && (bbox.ymax > extent.ymin)

/-- Closed-rectangle membership in a boundary extent (the spec's notion of
"a point in common" with the extent rectangle). -/
def inExtent (e : Extent) (x y : ℚ) : Prop :=
  e.xmin ≤ x ∧ x ≤ e.xmax ∧ e.ymin ≤ y ∧ y ≤ e.ymax

/-- Closed-rectangle membership in a row's bounding box. -/
def inRowBBox (b : RowBBox) (x y : ℚ) : Prop :=
  b.xmin ≤ x ∧ x ≤ b.xmax ∧ b.ymin ≤ y ∧ y ≤ b.ymax

/-- A feature of a vector-driver layer in the `create_file` /
`filter_by_boundary` paths: field values by position (as read with
`feature.GetField(i)`) plus the geometry. -/
structure SrcFeature where
  values : List Value
  geom : Geometry

/-- The output-schema step of `create_file` (lines 219-223): a field of
type `OFTStringList` is re-created as an `OFTString` field with the same
name; every other field definition is created unchanged. -/
def adapt_field (fd : FieldDefn) : FieldDefn :=
  if fd.ftype = OFTStringList then { name := fd.name, ftype := OFTString }
  else fd

/-- `value = ",".join(value)` applied to a string-list value. -/
def join_value (v : Value) : Value :=
  match v with
  | Value.strListV l => Value.strV (String.intercalate "," l)
  | v => v

/-- The per-field value step of the `create_file` loop: the comma join is
applied exactly when the input field's type is `OFTStringList`. -/
def convert_value (field_type : Nat) (v : Value) : Value :=
  if field_type = OFTStringList then join_value v else v

/-- One iteration body of the `create_file` feature loop: every output
field is set from the positionally matching input value (joined for
string-list fields), and the geometry is copied with
`SetGeometry(feature.GetGeometryRef())`. -/
def convert_feature (defn : List FieldDefn) (feature : SrcFeature) : SrcFeature :=
  { values := List.zipWith (fun fd v => convert_value fd.ftype v) defn feature.values
    geom := feature.geom }

/-- The `create_file` feature loop with its counter: the counter starts
at 1, each surviving feature is written, the counter is incremented, and
the loop `break`s when the counter reaches 1000 (source line 253). -/
def create_file_loop (defn : List FieldDefn) (counter : Nat) :
    List SrcFeature → List SrcFeature
  | [] => []
  | feature :: rest =>
    let out := convert_feature defn feature
    if counter + 1 = 1000 then [out]
    else out :: create_file_loop defn (counter + 1) rest

/-- `extract.create_file(input_path, output_path, geom_wkb, layer_name)`
over an explicit input layer.  `SetSpatialFilter` of the vector driver is
modelled as the predicate `spatial_filter`; the function returns the
output layer's schema and written features. -/
def create_file (defn : List FieldDefn) (features : List SrcFeature)
    (spatial_filter : SrcFeature → Bool) :
    List FieldDefn × List SrcFeature :=
  (defn.map adapt_field, create_file_loop defn 1 (features.filter spatial_filter))

/-- The `filter_by_boundary` feature loop with its (unused-for-control)
counter: every surviving input feature object is written unchanged with
`output_layer.CreateFeature(feature)`. -/
def filter_by_boundary_loop (counter : Nat) :
    List SrcFeature → List SrcFeature
  | [] => []
  | feature :: rest => feature :: filter_by_boundary_loop (counter + 1) rest

/-- `extract.filter_by_boundary(input_path, output_path, geom_wkb)` over
an explicit input layer: field definitions are copied one by one without
remapping, the driver spatial filter (modelled as `spatial_filter`) is
set, and surviving features are re-written as-is. -/
def filter_by_boundary (defn : List FieldDefn) (features : List SrcFeature)
    (spatial_filter : SrcFeature → Bool) :
    List FieldDefn × List SrcFeature :=
  (defn, filter_by_boundary_loop 1 (features.filter spatial_filter))

/-- `VERSION.replace("-", "").replace(".", "")` in `extract.main`. -/
def stripVersion (v : String) : String :=
  String.mk (v.toList.filter (fun c => !(c = '-' || c = '.')))

/-- The output file name built in `extract.main` (line 344):
`f"{boundary.iso3}_{boundary.id}_{theme.om_theme}_{theme.om_type}_{version}.fgb"`. -/
def file_name_for (iso3 : String) (id : Int) (om_theme om_type version : String) :
    String :=
  iso3 ++ "_" ++ toString id ++ "_" ++ om_theme ++ "_" ++ om_type ++ "_" ++
    version ++ ".fgb"

/-! ## src/hdx_sync.py -/

/-- The catalog item produced by `hdx_sync.parse_object`. -/
structure OvertureItem where
  object_id : String
  theme : String
  type : String
  release : String
  file_path : String
deriving DecidableEq

/-- `Path(s3_object).name` for a slash-separated object key. -/
def path_name (s3_object : String) : String :=
  (pySplit s3_object '/').getLastD ""

/-- The release computation of `parse_object`:
`datetime.strptime(release_str[:-1], "%Y%m%d").date().isoformat()` then
re-append the trailing revision digit.  `strptime` is the Python standard
library; it is modelled as requiring eight digits with a calendar-plausible
month and day, producing `YYYY-MM-DD` (the day-of-month upper bound is
approximated by 31; no claim depends on finer calendar validation). -/
def parse_release (release_str : String) : Option String :=
  let chars := release_str.toList
  let core := chars.dropLast
  if core.length = 8 ∧ core.all Char.isDigit then
    let toN := fun (cs : List Char) =>
      cs.foldl (fun a c => a * 10 + (c.toNat - '0'.toNat)) 0
    let m := toN ((core.drop 4).take 2)
    let d := toN (core.drop 6)
    if 1 ≤ m ∧ m ≤ 12 ∧ 1 ≤ d ∧ d ≤ 31 then
      some (String.mk (core.take 4) ++ "-" ++ String.mk ((core.drop 4).take 2) ++
        "-" ++ String.mk (core.drop 6) ++ "." ++
        String.mk [chars.getLastD ' '])
    else none
  else none

/-- `hdx_sync.parse_object(s3_object)`.  The four-way destructuring
`object_id, theme, type, release_str = file_name.split("_")` raises a
`ValueError` unless the split has exactly four parts; every raise is
modelled as `none`. -/
def parse_object (s3_object : String) : Option OvertureItem :=
  let file_path := path_name s3_object
  let file_name := (pySplit file_path '.').headD ""
  match pySplit file_name '_' with
  | [object_id, theme, ty, release_str] =>
    match parse_release release_str with
    | some release =>
      some { object_id := object_id, theme := theme, type := ty,
             release := release, file_path := file_path }
    | none => none
  | _ => none

/-! ## Helper lemmas -/

/-- The capped `create_file` loop writes the first `1000 - c` surviving
features (converted) when started at counter `c < 1000`. -/
theorem create_file_loop_take (defn : List FieldDefn) :
    ∀ (l : List SrcFeature) (c : Nat), c < 1000 →
      create_file_loop defn c l = (l.take (1000 - c)).map (convert_feature defn) := by
  intro l
  induction l with
  | nil => intro c hc; simp [create_file_loop]
  | cons f rest ih =>
    intro c hc
    by_cases h : c + 1 = 1000
    · have h1 : 1000 - c = 1 := by omega
      simp [create_file_loop, h, h1]
    · have hlt : c + 1 < 1000 := by omega
      have h1 : 1000 - c = (1000 - (c + 1)) + 1 := by omega
      simp [create_file_loop, h, h1, ih (c + 1) hlt]

/-- Closed form of `create_file`: adapted schema, plus the first 999
spatially surviving features mapped through the field plan. -/
theorem create_file_eq (defn : List FieldDefn) (features : List SrcFeature)
    (spatial_filter : SrcFeature → Bool) :
    create_file defn features spatial_filter =
      (defn.map adapt_field,
        ((features.filter spatial_filter).take 999).map (convert_feature defn)) := by
  unfold create_file
  rw [create_file_loop_take defn _ 1 (by omega)]

/-- The `filter_by_boundary` loop writes every surviving feature,
unchanged and in order. -/
theorem filter_by_boundary_loop_id :
    ∀ (c : Nat) (l : List SrcFeature), filter_by_boundary_loop c l = l := by
  intro c l
  induction l generalizing c with
  | nil => rfl
  | cons f rest ih => simp [filter_by_boundary_loop, ih]

/-- A successful `row_to_feature` always carries an actual feature. -/
theorem row_to_feature_ok_shape (row : Row) (layer_defn : List FieldDefn)
    (boundary_geom : Geometry) (f : Option Feature)
    (h : row_to_feature row layer_defn boundary_geom = Except.ok f) :
    ∃ feat, f = some feat := by
  unfold row_to_feature at h
  cases hc : check_geometry row.geometry with
  | error e => rw [hc] at h; cases h
  | ok geom => rw [hc] at h; cases h; exact ⟨_, rfl⟩

/-- A successful batch write emits one feature per input row. -/
theorem write_batch_length (rows : List Row) (layer_defn : List FieldDefn)
    (boundary_geom : Geometry) (fs : List Feature)
    (h : write_batch rows layer_defn boundary_geom = Except.ok fs) :
    fs.length = rows.length := by
  induction rows generalizing fs with
  | nil =>
    unfold write_batch batch_features at h
    cases h
    rfl
  | cons r rest ih =>
    unfold write_batch batch_features at h
    cases hr : row_to_feature r layer_defn boundary_geom with
    | error e => rw [hr] at h; cases h
    | ok f =>
      rw [hr] at h
      cases hrest : batch_features layer_defn boundary_geom rest with
      | error e => rw [hrest] at h; cases h
      | ok feats =>
        rw [hrest] at h
        cases h
        obtain ⟨feat, rfl⟩ := row_to_feature_ok_shape r layer_defn boundary_geom f hr
        have : write_batch rest layer_defn boundary_geom = Except.ok (feats.filterMap id) := by
          unfold write_batch; rw [hrest]
        simpa using ih (feats.filterMap id) this

/-- Distributing `countP` over a disjunction of element-wise disjoint
Boolean predicates. -/
theorem countP_or_disjoint {α : Type} (l : List α) (p q : α → Bool)
    (h : ∀ x ∈ l, ¬(p x = true ∧ q x = true)) :
    l.countP (fun x => p x || q x) = l.countP p + l.countP q := by
  induction l with
  | nil => rfl
  | cons a rest ih =>
    have hrest : ∀ x ∈ rest, ¬(p x = true ∧ q x = true) := by
      intro x hx; exact h x (List.mem_cons_of_mem a hx)
    have ha := h a (List.mem_cons_self a rest)
    simp only [List.countP_cons, ih hrest]
    cases hp : p a <;> cases hq : q a <;> simp_all <;> omega

/-- Splitting a membership-filtered count over the (duplicate-free) list
of requested ids: each id contributes its own per-id count. -/
theorem countP_keys_sum (store : List BRecord) (q : BRecord → Bool) :
    ∀ (ids : List Int), ids.Nodup →
      store.countP (fun r => ids.contains r.objectid && q r) =
        (ids.map (fun i => store.countP (fun r => r.objectid == i && q r))).sum := by
  intro ids
  induction ids with
  | nil =>
    intro _
    simp [List.countP_eq_zero]
  | cons i rest ih =>
    intro hnd
    rw [List.nodup_cons] at hnd
    have hsplit : store.countP (fun r => (i :: rest).contains r.objectid && q r) =
        store.countP (fun r => (r.objectid == i && q r) ||
          (rest.contains r.objectid && q r)) := by
      apply List.countP_congr
      intro r _
      rw [List.contains_cons]
      cases h1 : r.objectid == i <;> cases h2 : rest.contains r.objectid <;>
        cases h3 : q r <;> simp
    rw [hsplit, countP_or_disjoint]
    · simp only [List.map_cons, List.sum_cons]
      rw [ih hnd.2]
    · intro r _ hcontra
      obtain ⟨h1, h2⟩ := hcontra
      rw [Bool.and_eq_true] at h1 h2
      have heq : r.objectid = i := by
        have := h1.1; simpa using this
      have hmem : i ∈ rest := by
        have := h2.1
        rw [heq] at this
        have : List.elem i rest = true := this
        exact List.elem_iff.mp this
      exact hnd.1 hmem

/-- A sum of per-id counts, each at most one, is at most the number of
ids. -/
theorem sum_le_length (f : Int → Nat) :
    ∀ (ids : List Int), (∀ i ∈ ids, f i ≤ 1) →
      (ids.map f).sum ≤ ids.length := by
  intro ids
  induction ids with
  | nil => intro _; simp
  | cons i rest ih =>
    intro h
    have h1 := h i (List.mem_cons_self i rest)
    have h2 := ih (fun j hj => h j (List.mem_cons_of_mem i hj))
    simp only [List.map_cons, List.sum_cons, List.length_cons]
    omega

/-- If moreover some id contributes zero, the sum is strictly below the
number of ids. -/
theorem sum_lt_length (f : Int → Nat) :
    ∀ (ids : List Int), (∀ i ∈ ids, f i ≤ 1) →
      ∀ k ∈ ids, f k = 0 → (ids.map f).sum < ids.length := by
  intro ids
  induction ids with
  | nil => intro _ k hk; cases hk
  | cons i rest ih =>
    intro h k hk hk0
    have hrest : ∀ j ∈ rest, f j ≤ 1 := fun j hj => h j (List.mem_cons_of_mem i hj)
    simp only [List.map_cons, List.sum_cons, List.length_cons]
    rcases List.mem_cons.mp hk with rfl | hkr
    · have := sum_le_length f rest hrest
      omega
    · have h1 := h i (List.mem_cons_self i rest)
      have := ih hrest k hkr hk0
      omega

/-- `matchedB` is the positivity of the per-id record count. -/
theorem matchedB_pos (store : List BRecord) (i : Int) :
    matchedB store i = true ↔
      0 < store.countP (fun r => r.objectid == i && r.rb != "-") := by
  rw [matchedB, List.any_eq_true, List.countP_pos_iff]

/-- Sorting by name does not change how many boundaries there are. -/
theorem result_boundaries_length (store : List BRecord) (maybe_ids : List Int)
    (with_geom : Bool) :
    (result_boundaries store maybe_ids with_geom).length =
      (kept_records store maybe_ids).length := by
  unfold result_boundaries sortByName
  rw [List.length_insertionSort, List.length_map]

/-- Membership in the sorted result is membership in the built list. -/
theorem result_boundaries_mem (store : List BRecord) (maybe_ids : List Int)
    (with_geom : Bool) (b : Boundary) :
    b ∈ result_boundaries store maybe_ids with_geom ↔
      ∃ r ∈ kept_records store maybe_ids, b = mkBoundary with_geom r := by
  unfold result_boundaries sortByName
  rw [List.mem_insertionSort, List.mem_map]
  constructor
  · rintro ⟨r, hr, rfl⟩; exact ⟨r, hr, rfl⟩
  · rintro ⟨r, hr, rfl⟩; exact ⟨r, hr, rfl⟩

/-- Characterization of the records surviving both filters, for a
non-empty request. -/
theorem kept_records_mem (store : List BRecord) (maybe_ids : List Int)
    (hne : maybe_ids ≠ []) (r : BRecord) :
    r ∈ kept_records store maybe_ids ↔
      r ∈ store ∧ maybe_ids.contains r.objectid = true ∧ r.rb ≠ "-" := by
  have hpos : 0 < maybe_ids.length := List.length_pos.mpr hne
  unfold kept_records selected_records
  rw [if_pos hpos, List.mem_filter, List.mem_filter]
  constructor
  · rintro ⟨⟨h1, h2⟩, h3⟩
    exact ⟨h1, h2, by simpa using h3⟩
  · rintro ⟨h1, h2, h3⟩
    exact ⟨⟨h1, h2⟩, by simpa using h3⟩

/-- The number of kept records for a non-empty request, as a count over
the store. -/
theorem kept_records_length (store : List BRecord) (maybe_ids : List Int)
    (hne : maybe_ids ≠ []) :
    (kept_records store maybe_ids).length =
      store.countP (fun r => maybe_ids.contains r.objectid && r.rb != "-") := by
  have hpos : 0 < maybe_ids.length := List.length_pos.mpr hne
  unfold kept_records selected_records
  rw [if_pos hpos, List.filter_filter, ← List.countP_eq_length_filter]
  apply List.countP_congr
  intro r _
  cases h1 : maybe_ids.contains r.objectid <;> cases h2 : r.rb != "-" <;> simp_all

/-- For a requested id, the returned boundary-id list contains it exactly
when some non-sentinel record matches it. -/
theorem result_ids_contains (store : List BRecord) (maybe_ids : List Int)
    (with_geom : Bool) (hne : maybe_ids ≠ []) (i : Int) (hi : i ∈ maybe_ids) :
    ((result_boundaries store maybe_ids with_geom).map Boundary.id).contains i =
      matchedB store i := by
  rw [Bool.eq_iff_iff]
  constructor
  · intro h
    have hmem : i ∈ (result_boundaries store maybe_ids with_geom).map Boundary.id :=
      List.elem_iff.mp h
    obtain ⟨b, hb, hbid⟩ := List.mem_map.mp hmem
    obtain ⟨r, hr, rfl⟩ := (result_boundaries_mem store maybe_ids with_geom b).mp hb
    obtain ⟨hrs, _, hrb⟩ := (kept_records_mem store maybe_ids hne r).mp hr
    rw [matchedB, List.any_eq_true]
    refine ⟨r, hrs, ?_⟩
    rw [Bool.and_eq_true, beq_iff_eq, bne_iff_ne]
    exact ⟨hbid, hrb⟩
  · intro h
    rw [matchedB, List.any_eq_true] at h
    obtain ⟨r, hrs, hmatch⟩ := h
    rw [Bool.and_eq_true, beq_iff_eq, bne_iff_ne] at hmatch
    obtain ⟨hid, hrb⟩ := hmatch
    have hrk : r ∈ kept_records store maybe_ids := by
      rw [kept_records_mem store maybe_ids hne]
      refine ⟨hrs, ?_, hrb⟩
      have : r.objectid ∈ maybe_ids := hid ▸ hi
      exact List.elem_iff.mpr this
    have hbmem : mkBoundary with_geom r ∈ result_boundaries store maybe_ids with_geom :=
      (result_boundaries_mem store maybe_ids with_geom _).mpr ⟨r, hrk, rfl⟩
    apply List.elem_iff.mpr
    apply List.mem_map.mpr
    exact ⟨mkBoundary with_geom r, hbmem, hid⟩

/-- Whenever `get_boundaries` raises, the reported missing-id list is
exactly the requested ids with no matching non-sentinel record. -/
theorem get_boundaries_error_payload (store : List BRecord) (maybe_ids : List Int)
    (with_geom : Bool) (e : List Int)
    (h : get_boundaries store maybe_ids with_geom = Except.error e) :
    e = maybe_ids.filter (fun i => !matchedB store i) := by
  unfold get_boundaries at h
  by_cases h0 : maybe_ids.length = 0
  · rw [if_pos h0] at h; cases h
  · rw [if_neg h0] at h
    have hne : maybe_ids ≠ [] := by
      intro hh; apply h0; rw [hh]; rfl
    by_cases h1 : (result_boundaries store maybe_ids with_geom).length ≠ maybe_ids.length
    · rw [if_pos h1] at h
      cases h
      apply List.filter_congr
      intro i hi
      rw [result_ids_contains store maybe_ids with_geom hne i hi]
    · rw [if_neg h1] at h; cases h

/-- For a non-empty, duplicate-free request against a store with at most
one matching non-sentinel record per id, `get_boundaries` raises exactly
when some requested id has no matching non-sentinel record. -/
theorem get_boundaries_error_iff (store : List BRecord) (maybe_ids : List Int)
    (with_geom : Bool) (hne : maybe_ids ≠ []) (hnd : maybe_ids.Nodup)
    (hone : ∀ i ∈ maybe_ids,
      store.countP (fun r => r.objectid == i && r.rb != "-") ≤ 1) :
    (∃ e, get_boundaries store maybe_ids with_geom = Except.error e) ↔
      ∃ i ∈ maybe_ids, matchedB store i = false := by
  have hlen : (result_boundaries store maybe_ids with_geom).length =
      (maybe_ids.map (fun i =>
        store.countP (fun r => r.objectid == i && r.rb != "-"))).sum := by
    rw [result_boundaries_length, kept_records_length store maybe_ids hne,
      countP_keys_sum store _ maybe_ids hnd]
  have h0 : ¬(maybe_ids.length = 0) := by
    intro hh; exact hne (List.length_eq_zero.mp hh)
  constructor
  · rintro ⟨e, he⟩
    by_contra hall
    push_neg at hall
    have hone' : ∀ i ∈ maybe_ids,
        store.countP (fun r => r.objectid == i && r.rb != "-") = 1 := by
      intro i hi
      have h1 := hone i hi
      have h2 : matchedB store i = true := by
        have := hall i hi
        cases hmb : matchedB store i
        · exact absurd hmb this
        · rfl
      have h3 := (matchedB_pos store i).mp h2
      omega
    have hsum : (maybe_ids.map (fun i =>
        store.countP (fun r => r.objectid == i && r.rb != "-"))).sum =
        maybe_ids.length := by
      rw [List.map_congr_left hone']
      simp
    unfold get_boundaries at he
    rw [if_neg h0] at he
    rw [if_neg (by rw [hlen, hsum]; exact fun hc => hc rfl)] at he
    cases he
  · rintro ⟨k, hk, hkf⟩
    have hfk : store.countP (fun r => r.objectid == k && r.rb != "-") = 0 := by
      by_contra hpos
      have h1 : 0 < store.countP (fun r => r.objectid == k && r.rb != "-") :=
        Nat.pos_of_ne_zero hpos
      have h2 := (matchedB_pos store k).mpr h1
      rw [hkf] at h2; cases h2
    have hlt := sum_lt_length
      (fun i => store.countP (fun r => r.objectid == i && r.rb != "-"))
      maybe_ids hone k hk hfk
    refine ⟨maybe_ids.filter (fun i =>
      !(((result_boundaries store maybe_ids with_geom).map Boundary.id).contains i)), ?_⟩
    unfold get_boundaries
    rw [if_neg h0, if_pos (by rw [hlen]; omega)]

/-- `bs = result_boundaries ...` on every successful return path. -/
theorem get_boundaries_ok_shape (store : List BRecord) (maybe_ids : List Int)
    (with_geom : Bool) (bs : List Boundary)
    (h : get_boundaries store maybe_ids with_geom = Except.ok bs) :
    bs = result_boundaries store maybe_ids with_geom := by
  unfold get_boundaries at h
  by_cases h0 : maybe_ids.length = 0
  · rw [if_pos h0] at h; cases h; rfl
  · rw [if_neg h0] at h
    by_cases h1 : (result_boundaries store maybe_ids with_geom).length ≠ maybe_ids.length
    · rw [if_pos h1] at h; cases h
    · rw [if_neg h1] at h; cases h; rfl

/-- Every kept record is a store record whose region bucket is not the
sentinel, for any request. -/
theorem kept_records_sub (store : List BRecord) (maybe_ids : List Int)
    (r : BRecord) (h : r ∈ kept_records store maybe_ids) :
    r ∈ store ∧ r.rb ≠ "-" := by
  unfold kept_records at h
  have h' := List.mem_filter.mp h
  refine ⟨?_, by simpa using h'.2⟩
  have hsel := h'.1
  unfold selected_records at hsel
  by_cases hpos : 0 < maybe_ids.length
  · rw [if_pos hpos] at hsel; exact (List.mem_filter.mp hsel).1
  · rw [if_neg hpos] at hsel; exact hsel

/-! ## Concrete stores and inputs used by counterexamples and witnesses -/

/-- Two non-sentinel boundary records sharing the ISO3 code "LSO". -/
def storeC1 : List BRecord :=
  [{ objectid := 1, iso3 := "LSO", adm0_name := "Lesotho", rb := "r1", wkb := [1] },
   { objectid := 2, iso3 := "LSO", adm0_name := "Lesotho Disputed", rb := "r2", wkb := [2] }]

/-- Two store records with the same object id 1; no record with id 2. -/
def storeC2dup : List BRecord :=
  [{ objectid := 1, iso3 := "AAA", adm0_name := "A", rb := "r", wkb := [] },
   { objectid := 1, iso3 := "AAA", adm0_name := "B", rb := "r", wkb := [] }]

/-- A store holding only the first of two requested keys. -/
def storeC2w : List BRecord :=
  [{ objectid := 1, iso3 := "AAA", adm0_name := "A", rb := "r", wkb := [] }]

/-- A store whose only record for id 7 carries the sentinel region
bucket, next to an unrelated well-formed record. -/
def storeC9 : List BRecord :=
  [{ objectid := 7, iso3 := "X", adm0_name := "N", rb := "-", wkb := [] },
   { objectid := 8, iso3 := "Y", adm0_name := "M", rb := "r", wkb := [] }]

/-- A fieldless polygon feature for the truncation counterexample. -/
def featC3 : SrcFeature := { values := [], geom := Geometry.node 3 [] }

/-- A fieldless row with a polygon geometry column. -/
def rowC10 : Row := { geometry := Geometry.node 3 [], attrs := [] }

/-! ## Claims -/

/-- Claim C1 (code bug): the spec's merge rule for boundary-record groups
sharing an ISO3 code is not implemented.  On a store with two selected
records for ISO3 "LSO", `get_boundaries` returns two separate boundaries
carrying the two original byte-serialized geometries: no single merged
Boundary, no geometry union, no disputed-flag selection, and no
`NoAuthoritativeBoundary` failure path exists (the only raises are the
missing-file and missing-ids errors), although the source's own comment
announces "Check for repeated s3 and merge geometries". -/
theorem claim_C1_merge_not_implemented :
    get_boundaries storeC1 [1, 2] true =
      Except.ok
        [{ id := 1, iso3 := "LSO", name := "Lesotho", wkb := some [1] },
         { id := 2, iso3 := "LSO", name := "Lesotho Disputed", wkb := some [2] }] ∧
    (storeC1.map BRecord.iso3 = ["LSO", "LSO"]) := by
  exact ⟨rfl, rfl⟩

/-- Claim C2 counterexample: with two store records sharing object id 1
and the request `[1, 2]`, the record count matches the request count, so
`get_boundaries` returns successfully even though requested key 2 matches
no returned record — the claimed "if and only if" fails. -/
theorem claim_C2_counterexample :
    get_boundaries storeC2dup [1, 2] false =
      Except.ok
        [{ id := 1, iso3 := "AAA", name := "A", wkb := none },
         { id := 1, iso3 := "AAA", name := "B", wkb := none }] ∧
    ([{ id := 1, iso3 := "AAA", name := "A", wkb := none },
      { id := 1, iso3 := "AAA", name := "B", wkb := none }] : List Boundary).map
        Boundary.id = [1, 1] ∧
    matchedB storeC2dup 2 = false := by
  exact ⟨rfl, rfl, rfl⟩

/-- Claim C2 (amended): for a non-empty, duplicate-free request against a
store holding at most one non-sentinel record per requested id,
`get_boundaries` raises exactly when some requested id matches no
non-sentinel record, and the raised error carries exactly the list of
unmatched ids. -/
theorem claim_C2_missing_keys (store : List BRecord) (maybe_ids : List Int)
    (with_geom : Bool) (hne : maybe_ids ≠ []) (hnd : maybe_ids.Nodup)
    (hone : ∀ i ∈ maybe_ids,
      store.countP (fun r => r.objectid == i && r.rb != "-") ≤ 1) :
    ((∃ e, get_boundaries store maybe_ids with_geom = Except.error e) ↔
      ∃ i ∈ maybe_ids, matchedB store i = false) ∧
    (∀ e, get_boundaries store maybe_ids with_geom = Except.error e →
      e = maybe_ids.filter (fun i => !matchedB store i)) :=
  ⟨get_boundaries_error_iff store maybe_ids with_geom hne hnd hone,
   fun e he => get_boundaries_error_payload store maybe_ids with_geom e he⟩

/-- Claim C2 witness: requesting `[1, 2]` when only id 1 exists raises,
and the raised error is exactly `[2]`. -/
theorem claim_C2_missing_keys_witness :
    get_boundaries storeC2w [1, 2] false = Except.error [2] ∧
    [2] = ([1, 2] : List Int).filter (fun i => !matchedB storeC2w i) :=
  ⟨rfl, (claim_C2_missing_keys storeC2w [1, 2] false (by decide) (by decide)
      (by decide)).2 [2] rfl⟩

/-- Claim C3 counterexample: on a source whose spatial filter accepts all
1000 features, `create_file` writes only 999 — the fixed-feature-count
cap lives inside `create_file` itself (its loop breaks at counter 1000),
not only in sampling/testing callers. -/
theorem claim_C3_counterexample :
    ((List.replicate 1000 featC3).filter (fun f => true)).length = 1000 ∧
    (create_file [] (List.replicate 1000 featC3) (fun f => true)).2.length = 999 := by
  constructor
  · rw [List.filter_true, List.length_replicate]
  · rw [create_file_eq]
    simp [List.filter_true, List.length_take, List.length_replicate]

/-- Claim C3 (amended): `create_file` writes exactly the first 999
features accepted by the driver's spatial filter (all of them whenever
fewer than 1000 survive), mapped through the field plan, while the output
schema is the input schema with string-list fields flattened; the 999
cap is hardcoded on this path. -/
theorem claim_C3_create_file_capped (defn : List FieldDefn)
    (features : List SrcFeature) (spatial_filter : SrcFeature → Bool) :
    create_file defn features spatial_filter =
      (defn.map adapt_field,
        ((features.filter spatial_filter).take 999).map (convert_feature defn)) :=
  create_file_eq defn features spatial_filter

/-- Claim C4 counterexample: a LineString input is not a Polygon, yet
`check_geometry` returns it unchanged instead of raising — the claim that
every non-Polygon input raises is false on the code. -/
theorem claim_C4_counterexample :
    check_geometry (Geometry.node 2 []) = Except.ok (Geometry.node 2 []) ∧
    (Geometry.node 2 []).gtype ≠ wkbPolygon := by
  exact ⟨rfl, by decide⟩

/-- Claim C4 (amended): `check_geometry` wraps a single Polygon into a
MultiPolygon holding it as the only part, passes MultiPolygon and
LineString inputs through unchanged, and raises the invalid-geometry
error exactly for every other geometry type. -/
theorem claim_C4_geometry_normalization (g : Geometry) :
    (g.gtype = wkbPolygon →
      check_geometry g = Except.ok (Geometry.node wkbMultiPolygon [g])) ∧
    (g.gtype = wkbMultiPolygon ∨ g.gtype = wkbLineString →
      check_geometry g = Except.ok g) ∧
    (g.gtype ≠ wkbPolygon → g.gtype ≠ wkbMultiPolygon → g.gtype ≠ wkbLineString →
      check_geometry g = Except.error "Invalid geometry type found") := by
  refine ⟨?_, ?_, ?_⟩
  · intro h
    simp [check_geometry, h, wkbPolygon, wkbMultiPolygon, wkbLineString]
  · intro h
    rcases h with h | h <;>
      simp [check_geometry, h, wkbPolygon, wkbMultiPolygon, wkbLineString]
  · intro h1 h2 h3
    simp [check_geometry, h1, h2, h3]

/-- Claim C4 witness: a Polygon is wrapped; a Point raises. -/
theorem claim_C4_geometry_normalization_witness :
    (Geometry.node 3 []).gtype = wkbPolygon ∧
    check_geometry (Geometry.node 3 []) =
      Except.ok (Geometry.node wkbMultiPolygon [Geometry.node 3 []]) ∧
    check_geometry (Geometry.node 1 []) =
      Except.error "Invalid geometry type found" :=
  ⟨by decide,
   (claim_C4_geometry_normalization (Geometry.node 3 [])).1 (by decide),
   (claim_C4_geometry_normalization (Geometry.node 1 [])).2.2
     (by decide) (by decide) (by decide)⟩

/-- Claim C5: the conversion redefines every string-list field as a
plain string field with the same name, joins its values with the comma
delimiter at conversion time, passes every other field through with
name, type and value unchanged, exposes exactly that adapted schema as
`create_file`'s output schema, and re-splitting the joined example
`["a","b","c"]` on the delimiter recovers the original list. -/
theorem claim_C5_schema_flattening :
    (∀ fd : FieldDefn, fd.ftype = OFTStringList →
      adapt_field fd = { name := fd.name, ftype := OFTString }) ∧
    (∀ fd : FieldDefn, fd.ftype ≠ OFTStringList → adapt_field fd = fd) ∧
    (∀ l : List String,
      convert_value OFTStringList (Value.strListV l) =
        Value.strV (String.intercalate "," l)) ∧
    (∀ (t : Nat) (v : Value), t ≠ OFTStringList → convert_value t v = v) ∧
    (∀ (defn : List FieldDefn) (features : List SrcFeature)
       (spatial_filter : SrcFeature → Bool),
      (create_file defn features spatial_filter).1 = defn.map adapt_field) ∧
    pySplit (String.intercalate "," ["a", "b", "c"]) ',' = ["a", "b", "c"] := by
  refine ⟨?_, ?_, ?_, ?_, ?_, by decide⟩
  · intro fd h; simp [adapt_field, h]
  · intro fd h; simp [adapt_field, h]
  · intro l; rfl
  · intro t v h; simp [convert_value, h]
  · intro defn features spatial_filter; rfl

/-- Claim C5 witness: concrete field adaptations and the concrete
join/split round trip. -/
theorem claim_C5_schema_flattening_witness :
    adapt_field { name := "sources", ftype := OFTStringList } =
      { name := "sources", ftype := OFTString } ∧
    adapt_field { name := "id", ftype := OFTString } =
      { name := "id", ftype := OFTString } ∧
    convert_value OFTStringList (Value.strListV ["a", "b", "c"]) =
      Value.strV "a,b,c" ∧
    convert_value OFTString (Value.strV "x") = Value.strV "x" :=
  ⟨claim_C5_schema_flattening.1 _ (by decide),
   claim_C5_schema_flattening.2.1 _ (by decide),
   (claim_C5_schema_flattening.2.2.1 ["a", "b", "c"]).trans (by decide),
   claim_C5_schema_flattening.2.2.2.1 OFTString (Value.strV "x") (by decide)⟩

/-- Claim C6 counterexample: the row bbox `[1,2]×[0,1]` shares the point
`(1,0)` with the extent `[0,1]×[0,1]`, yet the strict-inequality
predicate rejects the row — a false negative on touching rectangles. -/
theorem claim_C6_counterexample :
    inExtent { xmin := 0, xmax := 1, ymin := 0, ymax := 1 } 1 0 ∧
    inRowBBox { xmin := 1, xmax := 2, ymin := 0, ymax := 1 } 1 0 ∧
    bbox_predicate { xmin := 0, xmax := 1, ymin := 0, ymax := 1 }
      { xmin := 1, xmax := 2, ymin := 0, ymax := 1 } = false := by
  refine ⟨⟨?_, ?_, ?_, ?_⟩, ⟨?_, ?_, ?_, ?_⟩, by decide⟩ <;> norm_num

/-- Claim C6 (amended): the strict bounding-box predicate accepts every
row whose bbox rectangle shares an interior point with the boundary's
extent rectangle (no false negatives with interior overlap); rows whose
rectangle only touches the extent's boundary may be rejected. -/
theorem claim_C6_bbox_superset (e : Extent) (b : RowBBox) (x y : ℚ)
    (h1 : e.xmin < x) (h2 : x < e.xmax) (h3 : e.ymin < y) (h4 : y < e.ymax)
    (h5 : b.xmin < x) (h6 : x < b.xmax) (h7 : b.ymin < y) (h8 : y < b.ymax) :
    bbox_predicate e b = true := by
  unfold bbox_predicate
  simp only [Bool.and_eq_true, decide_eq_true_eq, gt_iff_lt]
  refine ⟨⟨⟨?_, ?_⟩, ?_⟩, ?_⟩ <;> linarith

/-- Claim C6 witness: a shared interior point forces acceptance. -/
theorem claim_C6_bbox_superset_witness :
    (1 : ℚ) < 3 / 2 ∧
    bbox_predicate { xmin := 0, xmax := 2, ymin := 0, ymax := 2 }
      { xmin := 1, xmax := 3, ymin := 1, ymax := 3 } = true :=
  ⟨by norm_num,
   claim_C6_bbox_superset _ _ (3 / 2) (3 / 2) (by norm_num) (by norm_num)
     (by norm_num) (by norm_num) (by norm_num) (by norm_num) (by norm_num)
     (by norm_num)⟩

/-- Claim C7: `filter_by_boundary` copies the input schema unchanged and
re-writes exactly the features accepted by the driver's spatial filter,
each one unchanged and in input order (a sublist of the input features,
with no field remapping). -/
theorem claim_C7_exact_filter_passthrough (defn : List FieldDefn)
    (features : List SrcFeature) (spatial_filter : SrcFeature → Bool) :
    (filter_by_boundary defn features spatial_filter).1 = defn ∧
    (filter_by_boundary defn features spatial_filter).2 =
      features.filter spatial_filter ∧
    ((filter_by_boundary defn features spatial_filter).2).Sublist features := by
  refine ⟨rfl, ?_, ?_⟩
  · unfold filter_by_boundary
    rw [filter_by_boundary_loop_id]
  · unfold filter_by_boundary
    rw [filter_by_boundary_loop_id]
    exact List.filter_sublist features

/-- Claim C8 (code bug): the extraction pipeline names its outputs with
five underscore-separated fields (`iso3_id_theme_type_version`), while
the catalog's `parse_object` destructures exactly four, so parsing a
pipeline-produced name fails (`ValueError` in the source, `none` here);
on the four-field pattern the spec documents, the parser succeeds and
recovers the release. -/
theorem claim_C8_filename_roundtrip_fails :
    parse_object
      (file_name_for "LSO" 1 "buildings" "building" (stripVersion VERSION)) =
      none ∧
    (pySplit ((pySplit
      (file_name_for "LSO" 1 "buildings" "building" (stripVersion VERSION))
        '.').headD "") '_').length = 5 ∧
    parse_object "LSO_buildings_building_202408200.fgb" =
      some { object_id := "LSO", theme := "buildings", type := "building",
             release := "2024-08-20.0",
             file_path := "LSO_buildings_building_202408200.fgb" } := by
  refine ⟨by decide, by decide, by decide⟩

/-- Claim C9: every boundary returned by `get_boundaries` stems from a
store record whose region bucket differs from the sentinel `"-"` (for
any request, empty or not); and a requested id whose store records all
carry the sentinel is reported through the missing-ids error even though
a record with that id exists. -/
theorem claim_C9_sentinel_rb_excluded :
    (∀ (store : List BRecord) (maybe_ids : List Int) (with_geom : Bool)
       (bs : List Boundary),
      get_boundaries store maybe_ids with_geom = Except.ok bs →
      ∀ b ∈ bs, ∃ r ∈ store, r.rb ≠ "-" ∧ b = mkBoundary with_geom r) ∧
    (∀ (store : List BRecord) (maybe_ids : List Int) (with_geom : Bool) (k : Int),
      maybe_ids ≠ [] → maybe_ids.Nodup →
      (∀ i ∈ maybe_ids,
        store.countP (fun r => r.objectid == i && r.rb != "-") ≤ 1) →
      k ∈ maybe_ids → (∃ r ∈ store, r.objectid = k) →
      (∀ r ∈ store, r.objectid = k → r.rb = "-") →
      ∃ e, get_boundaries store maybe_ids with_geom = Except.error e ∧ k ∈ e) := by
  constructor
  · intro store maybe_ids with_geom bs h b hb
    have hbs := get_boundaries_ok_shape store maybe_ids with_geom bs h
    rw [hbs] at hb
    obtain ⟨r, hr, rfl⟩ := (result_boundaries_mem store maybe_ids with_geom b).mp hb
    obtain ⟨hrs, hrb⟩ := kept_records_sub store maybe_ids r hr
    exact ⟨r, hrs, hrb, rfl⟩
  · intro store maybe_ids with_geom k hne hnd hone hk hex hall
    have hmk : matchedB store k = false := by
      rw [← Bool.not_eq_true, matchedB, List.any_eq_true]
      rintro ⟨r, hrs, hr⟩
      rw [Bool.and_eq_true, beq_iff_eq, bne_iff_ne] at hr
      exact hr.2 (hall r hrs hr.1)
    obtain ⟨e, he⟩ := (get_boundaries_error_iff store maybe_ids with_geom
      hne hnd hone).mpr ⟨k, hk, hmk⟩
    refine ⟨e, he, ?_⟩
    rw [get_boundaries_error_payload store maybe_ids with_geom e he]
    rw [List.mem_filter]
    exact ⟨hk, by rw [hmk]; rfl⟩

/-- Claim C9 witness: on `storeC9`, the listing result stems from the
non-sentinel record, and requesting id 7 (whose only record carries the
sentinel) raises with 7 among the reported missing ids. -/
theorem claim_C9_sentinel_rb_excluded_witness :
    (∃ r ∈ storeC9, r.rb ≠ "-" ∧
      ({ id := 8, iso3 := "Y", name := "M", wkb := none } : Boundary) =
        mkBoundary false r) ∧
    (∃ e, get_boundaries storeC9 [7] false = Except.error e ∧ 7 ∈ e) :=
  ⟨claim_C9_sentinel_rb_excluded.1 storeC9 [] false
      [{ id := 8, iso3 := "Y", name := "M", wkb := none }] rfl
      { id := 8, iso3 := "Y", name := "M", wkb := none }
      (List.mem_cons_self _ _),
   claim_C9_sentinel_rb_excluded.2 storeC9 [7] false 7 (by decide) (by decide)
      (by decide) (by decide)
      ⟨{ objectid := 7, iso3 := "X", adm0_name := "N", rb := "-", wkb := [] },
        List.mem_cons_self _ _, rfl⟩
      (by decide)⟩

/-- Claim C10: the columnar-mode row conversion never returns `None`
(the per-feature intersects test is commented out), its result is
independent of the boundary-geometry argument, and consequently a
successfully processed batch writes one output feature per surviving
row, whether or not the row intersects the exact boundary. -/
theorem claim_C10_no_boundary_dependence :
    (∀ (row : Row) (layer_defn : List FieldDefn) (g : Geometry),
      row_to_feature row layer_defn g ≠ Except.ok none) ∧
    (∀ (row : Row) (layer_defn : List FieldDefn) (g1 g2 : Geometry),
      row_to_feature row layer_defn g1 = row_to_feature row layer_defn g2) ∧
    (∀ (rows : List Row) (layer_defn : List FieldDefn) (g : Geometry)
       (fs : List Feature),
      write_batch rows layer_defn g = Except.ok fs → fs.length = rows.length) := by
  refine ⟨?_, ?_, ?_⟩
  · intro row layer_defn g h
    obtain ⟨feat, hfeat⟩ := row_to_feature_ok_shape row layer_defn g none h
    cases hfeat
  · intro row layer_defn g1 g2; rfl
  · intro rows layer_defn g fs h
    exact write_batch_length rows layer_defn g fs h

/-- Claim C10 witness: a one-row batch with a non-intersecting boundary
geometry still writes its one feature. -/
theorem claim_C10_no_boundary_dependence_witness :
    write_batch [rowC10] [] (Geometry.node 6 []) =
      Except.ok [{ fields := [], geom := Geometry.node 6 [Geometry.node 3 []] }] ∧
    ([({ fields := [], geom := Geometry.node 6 [Geometry.node 3 []] } :
        Feature)]).length = [rowC10].length :=
  ⟨rfl, claim_C10_no_boundary_dependence.2.2 [rowC10] [] (Geometry.node 6 [])
    [{ fields := [], geom := Geometry.node 6 [Geometry.node 3 []] }] rfl⟩

end OM
